import Mathlib

/-!
Shallow embedding of the vineetkr-api User CRUD service.

Sources embedded:
* `src/controllers/userController.js` — the four request handlers
  (`getUsers`, `createUser`, `updateUser`, `deleteUser`).
* `src/validators/userValidator.js` (code reproduced in the repository's
  framework guide) — the Zod `createUserSchema` / `updateUserSchema`.
* `src/models/User.js` (code reproduced in the framework guide) — the
  Mongoose schema: `name` trimmed, `email` lowercased and unique, automatic
  `createdAt` / `updatedAt` timestamps.  With Mongoose 6+ (the repo pins
  mongoose 8.0.3) the `lowercase: true` setter also runs on query filters,
  so `findOne({ email })` compares case-normalized values.
* `src/server.js` — the top-level error-handling middleware
  (`res.status(err.status || 500).json({ success:false, message: err.message || 'Internal Server Error' })`,
  with `console.error(err.stack)` as the only server-side log).

Machine integers do not occur; JS numbers used by the code are integers in
tiny ranges, modelled as `Int`/`Nat`.  Fallible operations return `Except`.
-/

/-- A document stored in the `users` collection.  `createdAt`/`updatedAt`
are the Mongoose timestamps, modelled as `Nat` instants. -/
structure StoredUser where
  id : String
  name : String
  email : String
  age : Option Int
  createdAt : Nat
  updatedAt : Nat
deriving DecidableEq, Repr

/-- A parsed JSON request body after `express.json()`: the three fields the
Zod object schemas recognise (Zod strips unknown keys). -/
structure Payload where
  name : Option String := none
  email : Option String := none
  age : Option Int := none
deriving DecidableEq, Repr

/-- The `data` part of a response envelope. -/
inductive RData where
  | nothing
  | user (u : StoredUser)
  | list (us : List StoredUser)
deriving DecidableEq, Repr

/-- The uniform JSON response envelope plus the HTTP status code. -/
structure Response where
  status : Nat
  success : Bool
  message : Option String := none
  count : Option Nat := none
  data : RData := RData.nothing
  errors : Option (List String) := none
deriving DecidableEq, Repr

/-- A thrown JS error as seen by the error middleware: optional `status`
field, `message`, `stack`. -/
structure JsError where
  status : Option Nat
  message : String
  stack : String
deriving DecidableEq, Repr

/-- JS truthiness of a possibly-absent string (`undefined` and `""` are
falsy), as used by `if (id)` and `if (validatedData.email)`. -/
def truthy : Option String → Bool
  | some s => !s.isEmpty
  | none => false

/-- JS `s.toLowerCase()` restricted to ASCII letters — what Mongoose's
`lowercase: true` setter applies to the `email` path. -/
def toLowerCase (s : String) : String :=
  String.mk (s.data.map Char.toLower)

/-- A string Mongoose can cast to an ObjectId: 24 hex characters, or any
12-character string (taken as 12 raw bytes). -/
def isHexChar (c : Char) : Bool :=
  c.isDigit || ('a' ≤ c && c ≤ 'f') || ('A' ≤ c && c ≤ 'F')

def castableObjectId (s : String) : Bool :=
  (s.length == 24 && s.data.all isHexChar) || s.length == 12

/-! ### Zod email predicate

`z.string().email()` in zod 3.22.4 tests the regex
`/^(?!\.)(?!.*\.\.)([A-Z0-9_'+\-\.]*)[A-Z0-9_+-]@([A-Z0-9][A-Z0-9\-]*\.)+[A-Z]{2,}$/i`,
implemented below on character lists. -/

def splitOnCharAux (c : Char) : List Char → List Char → List (List Char)
  | [], acc => [acc.reverse]
  | d :: rest, acc =>
      if d == c then acc.reverse :: splitOnCharAux c rest []
      else splitOnCharAux c rest (d :: acc)

def splitOnChar (c : Char) (l : List Char) : List (List Char) :=
  splitOnCharAux c l []

/-- Characters allowed in the email local part: `[A-Z0-9_'+\-.]`, case
insensitive (39 is the apostrophe). -/
def isLocalChar (c : Char) : Bool :=
  c.isAlphanum || c == '_' || c.toNat == 39 || c == '+' || c == '-' || c == '.'

/-- Characters allowed as the final local-part character: `[A-Z0-9_+-]`. -/
def isLocalEnd (c : Char) : Bool :=
  c.isAlphanum || c == '_' || c == '+' || c == '-'

/-- The `(?!.*\.\.)` lookahead: no two consecutive dots anywhere. -/
def noDoubleDot : List Char → Bool
  | a :: b :: rest => !(a == '.' && b == '.') && noDoubleDot (b :: rest)
  | _ => true

/-- A non-final domain label: `[A-Z0-9][A-Z0-9-]*`. -/
def isDomainLabel : List Char → Bool
  | [] => false
  | c :: rest => c.isAlphanum && rest.all (fun d => d.isAlphanum || d == '-')

/-- The final domain label: `[A-Z]{2,}`. -/
def isTldLabel (l : List Char) : Bool :=
  decide (2 ≤ l.length) && l.all Char.isAlpha

def isEmail (s : String) : Bool :=
  let cs := s.data
  (match cs with
   | [] => false
   | c :: _ => !(c == '.')) &&
  noDoubleDot cs &&
  (match splitOnChar '@' cs with
   | [lp, dom] =>
       !lp.isEmpty && lp.all isLocalChar &&
       (match lp.getLast? with
        | some c => isLocalEnd c
        | none => false) &&
       (let parts := splitOnChar '.' dom
        decide (2 ≤ parts.length) &&
        (match parts.getLast? with
         | some t => isTldLabel t
         | none => false) &&
        parts.dropLast.all isDomainLabel)
   | _ => false)

/-! ### Zod schemas (`src/validators/userValidator.js`)

`createUserSchema = z.object({ name: min 2 / max 50, email: .email(),
age: .int().min(0).max(150).optional() })`;
`updateUserSchema = createUserSchema.partial()`.
Zod collects every violated constraint (no short-circuit); the issue
messages below are the ones from the source. -/

def nameIssues : Option String → List String
  | none => ["Required"]
  | some s =>
      (if s.length < 2 then ["Name must be at least 2 characters"] else []) ++
      (if s.length > 50 then ["Name must be less than 50 characters"] else [])

def emailIssues : Option String → List String
  | none => ["Required"]
  | some s => if isEmail s then [] else ["Invalid email format"]

def ageIssues : Option Int → List String
  | none => []
  | some a =>
      (if a < 0 then ["Age cannot be negative"] else []) ++
      (if a > 150 then ["Age seems unrealistic"] else [])

def createIssues (b : Payload) : List String :=
  nameIssues b.name ++ emailIssues b.email ++ ageIssues b.age

/-- The normalized output of `createUserSchema.parse`. -/
structure Validated where
  name : String
  email : String
  age : Option Int
deriving DecidableEq, Repr

/-- `createUserSchema.parse(body)`: the validated data, or the list of
issue messages of a thrown ZodError. -/
def createParse (b : Payload) : Except (List String) Validated :=
  match b.name, b.email with
  | some n, some e =>
      if (createIssues b).isEmpty then Except.ok ⟨n, e, b.age⟩
      else Except.error (createIssues b)
  | _, _ => Except.error (createIssues b)

/-- `true` iff `createUserSchema.parse` succeeds on the payload. -/
def createAccepts (b : Payload) : Bool :=
  match createParse b with
  | Except.ok _ => true
  | Except.error _ => false

def updateIssues (b : Payload) : List String :=
  (match b.name with
   | none => []
   | some s => nameIssues (some s)) ++
  (match b.email with
   | none => []
   | some s => emailIssues (some s)) ++
  ageIssues b.age

/-- `updateUserSchema.parse(body)`: every field optional. -/
def updateParse (b : Payload) : Except (List String) Payload :=
  if (updateIssues b).isEmpty then Except.ok b else Except.error (updateIssues b)

/-! ### Error middleware (`src/server.js`)

`app.use((err, req, res, next) => { console.error(err.stack);
res.status(err.status || 500).json({ success:false,
message: err.message || 'Internal Server Error' }) })`.
The second component of the result is the server-side log line. -/

/-- JS `x || d` on a possibly-absent number (`undefined` and `0` falsy). -/
def jsOrNat : Option Nat → Nat → Nat
  | some n, d => if n == 0 then d else n
  | none, d => d

def errorMiddleware (e : JsError) : Response × String :=
  ({ status := jsOrNat e.status 500
     success := false
     message := some (if e.message == "" then "Internal Server Error" else e.message) },
   e.stack)

/-- The CastError Mongoose throws when casting a malformed `_id`; it has no
`status` field, so the middleware falls back to 500. -/
def castError (id : String) : JsError :=
  { status := none
    message := "Cast to ObjectId failed for value \"" ++ id ++ "\" (type string) at path \"_id\" for model \"User\""
    stack := "CastError: Cast to ObjectId failed for value \"" ++ id ++ "\"" }

/-! ### Repository operations (Mongoose model calls) -/

/-- `User.findOne({ email })`: Mongoose runs the `lowercase` setter on the
query filter, and stored emails are already lowercased. -/
def findOneByEmail (db : List StoredUser) (email : String) : Option StoredUser :=
  db.find? (fun w => w.email == toLowerCase email)

/-- `User.findById(id)`: CastError on a malformed id, else first (unique)
document with that `_id`. -/
def findById (db : List StoredUser) (id : String) : Except JsError (Option StoredUser) :=
  if castableObjectId id then Except.ok (db.find? (fun w => w.id == id))
  else Except.error (castError id)

/-- The document `User.create(validatedData)` inserts: schema setters trim
the name and lowercase the email; timestamps are set to the current
instant. -/
def User_create (v : Validated) (newId : String) (now : Nat) : StoredUser :=
  { id := newId
    name := v.name.trim
    email := toLowerCase v.email
    age := v.age
    createdAt := now
    updatedAt := now }

/-- The `$set` a `findByIdAndUpdate(id, validatedData)` applies: provided
fields replace the old ones (through the schema setters), absent fields are
untouched, `updatedAt` is refreshed by the timestamps option. -/
def applyUpdate (u : StoredUser) (v : Payload) (now : Nat) : StoredUser :=
  { u with
    name := (match v.name with
             | some n => n.trim
             | none => u.name)
    email := (match v.email with
              | some e => toLowerCase e
              | none => u.email)
    age := (match v.age with
            | some a => some a
            | none => u.age)
    updatedAt := now }

/-- `User.find().sort({ createdAt: -1 })`: newest first. -/
def createdDesc (a b : StoredUser) : Prop := b.createdAt ≤ a.createdAt

instance : DecidableRel createdDesc := fun a b => Nat.decLe b.createdAt a.createdAt

instance : IsTotal StoredUser createdDesc :=
  ⟨fun a b => Nat.le_total b.createdAt a.createdAt⟩

instance : IsTrans StoredUser createdDesc :=
  ⟨fun _ _ _ h1 h2 => Nat.le_trans h2 h1⟩

def sortByCreatedAtDesc (l : List StoredUser) : List StoredUser :=
  List.insertionSort createdDesc l

/-! ### Request handlers (`src/controllers/userController.js`) -/

/-- `getUsers`: single-user lookup when the `id` query parameter is truthy,
full list otherwise.  A CastError reaches `next(error)` and hence the error
middleware. -/
def getUsers (db : List StoredUser) (qid : Option String) : Response :=
  if truthy qid then
    match findById db (qid.getD "") with
    | Except.error e => (errorMiddleware e).1
    | Except.ok none => { status := 404, success := false, message := some "User not found" }
    | Except.ok (some u) => { status := 200, success := true, data := RData.user u }
  else
    let users := sortByCreatedAtDesc db
    { status := 200, success := true, count := some users.length, data := RData.list users }

/-- `createUser`: validate, check email uniqueness, insert.  Returns the
response and the collection afterwards. -/
def createUser (db : List StoredUser) (body : Payload) (newId : String) (now : Nat) :
    Response × List StoredUser :=
  match createParse body with
  | Except.error errs =>
      ({ status := 400, success := false, message := some "Validation error",
         errors := some errs }, db)
  | Except.ok v =>
      match findOneByEmail db v.email with
      | some _ =>
          ({ status := 400, success := false,
             message := some "User with this email already exists" }, db)
      | none =>
          let u := User_create v newId now
          ({ status := 201, success := true, message := some "User created successfully",
             data := RData.user u }, db ++ [u])

/-- `User.findByIdAndUpdate(id, validatedData, { new:true, runValidators:true })`
followed by the response mapping of `updateUser`'s tail. -/
def runUpdate (db : List StoredUser) (id : String) (v : Payload) (now : Nat) :
    Response × List StoredUser :=
  if castableObjectId id then
    match db.find? (fun w => w.id == id) with
    | none => ({ status := 404, success := false, message := some "User not found" }, db)
    | some u =>
        let u2 := applyUpdate u v now
        ({ status := 200, success := true, message := some "User updated successfully",
           data := RData.user u2 },
         db.map (fun w => if w.id == id then u2 else w))
  else ((errorMiddleware (castError id)).1, db)

/-- `updateUser`: validate; when the payload carries a (truthy) email, the
uniqueness check `findOne({ email, _id: { $ne: id } })` excludes the record
being updated. -/
def updateUser (db : List StoredUser) (id : String) (body : Payload) (now : Nat) :
    Response × List StoredUser :=
  match updateParse body with
  | Except.error errs =>
      ({ status := 400, success := false, message := some "Validation error",
         errors := some errs }, db)
  | Except.ok v =>
      if truthy v.email then
        if (db.find? (fun w => w.email == toLowerCase (v.email.getD "") && w.id != id)).isSome then
          ({ status := 400, success := false,
             message := some "Email already in use by another user" }, db)
        else runUpdate db id v now
      else runUpdate db id v now

/-- `deleteUser`: `User.findByIdAndDelete(id)` and the response mapping;
a malformed id raises a CastError handled by the error middleware. -/
def deleteUser (db : List StoredUser) (id : String) : Response × List StoredUser :=
  if castableObjectId id then
    match db.find? (fun w => w.id == id) with
    | none => ({ status := 404, success := false, message := some "User not found" }, db)
    | some u =>
        ({ status := 200, success := true, message := some "User deleted successfully",
           data := RData.user u },
         db.filter (fun w => w.id != id))
  else ((errorMiddleware (castError id)).1, db)

/-- A concrete stored document used to instantiate theorems: the record the
service would hold after `POST {"name":"Jo","email":"A@B.com","age":30}`. -/
def sampleUser : StoredUser :=
  { id := "0123456789abcdef01234567"
    name := "Jo"
    email := "a@b.com"
    age := some 30
    createdAt := 1
    updatedAt := 1 }

/-- A second concrete document with a different id and email. -/
def otherUser : StoredUser :=
  { id := "89abcdef0123456789abcdef"
    name := "Max"
    email := "max@example.com"
    age := none
    createdAt := 2
    updatedAt := 2 }

/-- `createUserSchema.parse` succeeds exactly when no constraint is
violated. -/
theorem createAccepts_eq_isEmpty (b : Payload) :
    createAccepts b = (createIssues b).isEmpty := by
  unfold createAccepts createParse
  cases hn : b.name with
  | none => simp [createIssues, nameIssues, hn]
  | some n =>
    cases he : b.email with
    | none => simp [createIssues, nameIssues, emailIssues, hn, he]
    | some e => cases hc : (createIssues b).isEmpty <;> simp [hc]

/-- `findByIdAndUpdate` on an id whose first (unique) match is `u`. -/
theorem runUpdate_found (db : List StoredUser) (id : String) (v : Payload) (now : Nat)
    (w : StoredUser) (hcast : castableObjectId id = true)
    (hfind : db.find? (fun x => x.id == id) = some w) :
    runUpdate db id v now =
      ({ status := 200, success := true, message := some "User updated successfully",
         data := RData.user (applyUpdate w v now) },
       db.map (fun x => if x.id == id then applyUpdate w v now else x)) := by
  unfold runUpdate
  rw [hcast, hfind]
  simp

/-- With unique ids, looking up `u.id` finds `u` itself. -/
theorem find?_id_eq_self (db : List StoredUser) (u : StoredUser)
    (hu : u ∈ db) (hidu : ∀ w ∈ db, w.id = u.id → w = u) :
    db.find? (fun w => w.id == u.id) = some u := by
  cases hf : db.find? (fun w => w.id == u.id) with
  | none =>
      exfalso
      have := List.find?_eq_none.mp hf u hu
      simp at this
  | some w =>
      have h1 : (w.id == u.id) = true :=
        List.find?_some (p := fun x : StoredUser => x.id == u.id) hf
      have h2 : w ∈ db := List.mem_of_find?_eq_some hf
      have : w = u := hidu w h2 (by simpa using h1)
      rw [this]

/-- C9: the list operation returns every stored User ordered by `createdAt`
descending, with a count equal to the length of the returned sequence (and
to the collection size); an empty collection yields a 200 success envelope
with an empty sequence and count 0. -/
theorem getUsers_list_sorted_count (db : List StoredUser) :
    (getUsers db none).status = 200 ∧ (getUsers db none).success = true ∧
    (getUsers db none).data = RData.list (sortByCreatedAtDesc db) ∧
    (getUsers db none).count = some (sortByCreatedAtDesc db).length ∧
    (getUsers db none).count = some db.length ∧
    List.Perm (sortByCreatedAtDesc db) db ∧
    List.Sorted createdDesc (sortByCreatedAtDesc db) ∧
    getUsers [] none =
      { status := 200, success := true, count := some 0, data := RData.list [] } := by
  refine ⟨rfl, rfl, rfl, rfl, ?_, List.perm_insertionSort createdDesc db,
    List.sorted_insertionSort createdDesc db, rfl⟩
  exact congrArg some (List.perm_insertionSort createdDesc db).length_eq

/-- C10: a GET whose `id` query parameter is the empty string is treated as
a list-all request (the identifier branch fires only on a truthy `id`): the
response is the full-list envelope, identical to a GET without `id`. -/
theorem getUsers_empty_id_lists_all (db : List StoredUser) :
    getUsers db (some "") = getUsers db none ∧
    getUsers db (some "") =
      { status := 200, success := true, count := some (sortByCreatedAtDesc db).length,
        data := RData.list (sortByCreatedAtDesc db) } :=
  ⟨rfl, rfl⟩

/-- C8: a payload that fails `createUserSchema` is mapped straight to the
validation-error envelope and the stored collection is unchanged — nothing
is persisted, partially or fully. -/
theorem createUser_invalid_leaves_db_unchanged (db : List StoredUser) (body : Payload)
    (newId : String) (now : Nat) (errs : List String)
    (hfail : createParse body = Except.error errs) :
    (createUser db body newId now).2 = db ∧
    (createUser db body newId now).1 =
      { status := 400, success := false, message := some "Validation error",
        errors := some errs } := by
  unfold createUser
  rw [hfail]
  exact ⟨rfl, rfl⟩

theorem createUser_invalid_leaves_db_unchanged_witness :
    (createUser [sampleUser] { name := some "J", email := some "bad", age := some 200 }
        "89abcdef0123456789abcdef" 5).2 = [sampleUser] ∧
    (createUser [sampleUser] { name := some "J", email := some "bad", age := some 200 }
        "89abcdef0123456789abcdef" 5).1 =
      { status := 400, success := false, message := some "Validation error",
        errors := some ["Name must be at least 2 characters", "Invalid email format",
                        "Age seems unrealistic"] } :=
  createUser_invalid_leaves_db_unchanged [sampleUser]
    { name := some "J", email := some "bad", age := some 200 }
    "89abcdef0123456789abcdef" 5
    ["Name must be at least 2 characters", "Invalid email format", "Age seems unrealistic"]
    rfl

/-- C5: with a valid email fixed, `createUserSchema` accepts exactly the
payloads whose name length lies in 2–50 and whose age lies in 0–150, both
inclusive — so name lengths 1 and 51 are rejected while 2 and 50 pass, and
ages -1 and 151 are rejected while 0 and 150 pass. -/
theorem createUserSchema_boundaries (nm : String) (a : Int) :
    createAccepts { name := some nm, email := some "a@b.com", age := some a } = true ↔
      (2 ≤ nm.length ∧ nm.length ≤ 50 ∧ 0 ≤ a ∧ a ≤ 150) := by
  rw [createAccepts_eq_isEmpty]
  have he : isEmail "a@b.com" = true := by decide
  simp only [createIssues, nameIssues, emailIssues, ageIssues, he, if_true,
    List.isEmpty_iff, List.append_eq_nil]
  split_ifs <;> simp_all

/-- C2 (divergence): on an id that is not a well-formed ObjectId the code
does not produce the 404 not-found envelope: the CastError from the store
reaches the top-level middleware, which answers 500 with the cast message —
both for the get-one and for the delete operation.  An absent but
well-formed id does get the 404 envelope. -/
theorem malformed_id_yields_500_not_404 :
    (getUsers [sampleUser] (some "abc")).status = 500 ∧
    (getUsers [sampleUser] (some "abc")).message ≠ some "User not found" ∧
    (deleteUser [sampleUser] "abc").1.status = 500 ∧
    (getUsers [sampleUser] (some "89abcdef0123456789abcdef")) =
      { status := 404, success := false, message := some "User not found" } ∧
    (deleteUser [sampleUser] "89abcdef0123456789abcdef").1 =
      { status := 404, success := false, message := some "User not found" } := by
  decide

/-- C3 (counterexample): a storage failure without a `status` field is
answered with a 500 envelope whose message is exactly the internal error
detail — `err.message` is returned to the caller, not a generic text. -/
theorem error_handler_leaks_detail :
    (errorMiddleware
        { status := none
          message := "connect ECONNREFUSED 127.0.0.1:27017"
          stack := "MongooseServerSelectionError: connect ECONNREFUSED 127.0.0.1:27017" }).1 =
      { status := 500, success := false,
        message := some "connect ECONNREFUSED 127.0.0.1:27017" } := by
  decide

/-- C3 (amended): an uncaught failure without a `status` field yields a 500
envelope `{success:false, message}`, but the message is the error's own
message (the generic "Internal Server Error" text is used only when that
message is empty); only the stack trace stays in the server-side log. -/
theorem error_handler_amended (e : JsError)
    (hs : e.status = none) (hm : e.message ≠ "") :
    (errorMiddleware e).1.status = 500 ∧
    (errorMiddleware e).1.success = false ∧
    (errorMiddleware e).1.message = some e.message ∧
    (errorMiddleware e).2 = e.stack := by
  have hb : (e.message == "") = false := by
    simpa using hm
  unfold errorMiddleware jsOrNat
  rw [hs, hb]
  exact ⟨rfl, rfl, rfl, rfl⟩

theorem error_handler_amended_witness :
    (errorMiddleware { status := none, message := "boom", stack := "trace" }).1.status = 500 ∧
    (errorMiddleware { status := none, message := "boom", stack := "trace" }).1.message =
      some "boom" :=
  ⟨(error_handler_amended { status := none, message := "boom", stack := "trace" }
      rfl (by decide)).1,
   (error_handler_amended { status := none, message := "boom", stack := "trace" }
      rfl (by decide)).2.2.1⟩

/-- C1: when a User with a given stored (lowercased) email exists, creating
another User whose payload email differs only in letter case is rejected
with the 400 conflict envelope "User with this email already exists", and
the collection is unchanged.  The comparison is case-normalized because the
schema lowercases the email both on write and on the query filter. -/
theorem createUser_case_insensitive_conflict (db : List StoredUser) (body : Payload)
    (v : Validated) (u : StoredUser) (newId : String) (now : Nat)
    (hu : u ∈ db) (hparse : createParse body = Except.ok v)
    (hcase : u.email = toLowerCase v.email) :
    (createUser db body newId now).1.status = 400 ∧
    (createUser db body newId now).1.success = false ∧
    (createUser db body newId now).1.message = some "User with this email already exists" ∧
    (createUser db body newId now).2 = db := by
  have hsome : (findOneByEmail db v.email).isSome = true := by
    unfold findOneByEmail
    exact List.find?_isSome.mpr ⟨u, hu, by simp [hcase]⟩
  obtain ⟨w, hfind⟩ := Option.isSome_iff_exists.mp hsome
  simp [createUser, hparse, hfind]

theorem createUser_case_insensitive_conflict_witness :
    sampleUser ∈ [sampleUser] ∧
    createParse { name := some "Ann", email := some "A@B.com", age := some 30 } =
      Except.ok { name := "Ann", email := "A@B.com", age := some 30 } ∧
    sampleUser.email = toLowerCase "A@B.com" ∧
    (createUser [sampleUser] { name := some "Ann", email := some "A@B.com", age := some 30 }
        "89abcdef0123456789abcdef" 9).1.status = 400 ∧
    (createUser [sampleUser] { name := some "Ann", email := some "A@B.com", age := some 30 }
        "89abcdef0123456789abcdef" 9).2 = [sampleUser] := by
  have h := createUser_case_insensitive_conflict [sampleUser]
    { name := some "Ann", email := some "A@B.com", age := some 30 }
    { name := "Ann", email := "A@B.com", age := some 30 }
    sampleUser "89abcdef0123456789abcdef" 9
    (List.mem_singleton.mpr rfl) rfl (by decide)
  exact ⟨List.mem_singleton.mpr rfl, rfl, by decide, h.1, h.2.2.2⟩

/-- C4: a payload accepted by `createUserSchema` whose email is not yet
taken is created with status 201; the persisted (and returned) record's
email is the payload email lowercased by the schema setter. -/
theorem createUser_stores_lowercase_email (db : List StoredUser) (body : Payload)
    (v : Validated) (newId : String) (now : Nat)
    (hparse : createParse body = Except.ok v)
    (hfresh : findOneByEmail db v.email = none) :
    (createUser db body newId now).1.status = 201 ∧
    (createUser db body newId now).1.success = true ∧
    (createUser db body newId now).1.message = some "User created successfully" ∧
    (createUser db body newId now).1.data = RData.user (User_create v newId now) ∧
    (User_create v newId now).email = toLowerCase v.email ∧
    (createUser db body newId now).2 = db ++ [User_create v newId now] := by
  simp [createUser, hparse, hfresh, User_create]

theorem createUser_stores_lowercase_email_witness :
    createParse { name := some "Jo", email := some "A@B.com", age := some 30 } =
      Except.ok { name := "Jo", email := "A@B.com", age := some 30 } ∧
    findOneByEmail [] "A@B.com" = none ∧
    (createUser [] { name := some "Jo", email := some "A@B.com", age := some 30 }
        "0123456789abcdef01234567" 1).1.status = 201 ∧
    (User_create { name := "Jo", email := "A@B.com", age := some 30 }
        "0123456789abcdef01234567" 1).email = "a@b.com" := by
  have h := createUser_stores_lowercase_email []
    { name := some "Jo", email := some "A@B.com", age := some 30 }
    { name := "Jo", email := "A@B.com", age := some 30 }
    "0123456789abcdef01234567" 1 rfl rfl
  exact ⟨rfl, rfl, h.1, by decide⟩

/-- `updateUser` after a successful `updateUserSchema.parse`. -/
theorem updateUser_ok_unfold (db : List StoredUser) (id : String) (body v : Payload)
    (now : Nat) (hparse : updateParse body = Except.ok v) :
    updateUser db id body now =
      if truthy v.email then
        if (db.find? (fun w => w.email == toLowerCase (v.email.getD "") && w.id != id)).isSome then
          ({ status := 400, success := false,
             message := some "Email already in use by another user" }, db)
        else runUpdate db id v now
      else runUpdate db id v now := by
  unfold updateUser
  rw [hparse]

/-- C6: updating an existing User with a payload whose email equals the
User's own stored email (up to case) never hits the conflict branch: the
`_id: { $ne: id }` clause excludes the self-record, so the update proceeds
and answers 200. -/
theorem updateUser_own_email_no_conflict (db : List StoredUser) (body v : Payload)
    (u : StoredUser) (e : String) (now : Nat)
    (hu : u ∈ db) (hcast : castableObjectId u.id = true)
    (hparse : updateParse body = Except.ok v)
    (hemail : v.email = some e) (hcase : toLowerCase e = u.email)
    (huniq : ∀ w ∈ db, w.email = u.email → w.id = u.id) :
    (updateUser db u.id body now).1.status = 200 ∧
    (updateUser db u.id body now).1.success = true ∧
    (updateUser db u.id body now).1.message = some "User updated successfully" := by
  have hsome : (db.find? (fun x => x.id == u.id)).isSome = true :=
    List.find?_isSome.mpr ⟨u, hu, by simp⟩
  obtain ⟨w, hw⟩ := Option.isSome_iff_exists.mp hsome
  have hnone :
      db.find? (fun x => x.email == toLowerCase (v.email.getD "") && x.id != u.id) = none := by
    rw [List.find?_eq_none]
    intro x hx hcontra
    rw [hemail] at hcontra
    simp only [Option.getD_some] at hcontra
    rw [hcase] at hcontra
    have hparts := (Bool.and_eq_true _ _).mp hcontra
    have h1 : x.email = u.email := by simpa using hparts.1
    have h2 : x.id ≠ u.id := by simpa using hparts.2
    exact h2 (huniq x hx h1)
  have hmain : updateUser db u.id body now = runUpdate db u.id v now := by
    rw [updateUser_ok_unfold db u.id body v now hparse]
    by_cases ht : truthy v.email = true
    · rw [if_pos ht, hnone]
      simp
    · rw [if_neg ht]
  rw [hmain, runUpdate_found db u.id v now w hcast hw]
  exact ⟨rfl, rfl, rfl⟩

theorem updateUser_own_email_no_conflict_witness :
    updateParse { email := some "A@B.com" } = Except.ok { email := some "A@B.com" } ∧
    toLowerCase "A@B.com" = sampleUser.email ∧
    (updateUser [sampleUser] sampleUser.id { email := some "A@B.com" } 5).1.status = 200 ∧
    (updateUser [sampleUser] sampleUser.id { email := some "A@B.com" } 5).1.message =
      some "User updated successfully" := by
  have h := updateUser_own_email_no_conflict [sampleUser] { email := some "A@B.com" }
    { email := some "A@B.com" } sampleUser "A@B.com" 5
    (List.mem_singleton.mpr rfl) (by decide) rfl rfl (by decide) (by decide)
  exact ⟨rfl, by decide, h.1, h.2.2⟩

/-- C7: updating an existing User keeps every field that the payload does
not supply, refreshes `updatedAt`, and answers a 200 success envelope
carrying the updated record; the collection is the old one with just that
record replaced. -/
theorem updateUser_frame (db : List StoredUser) (body v : Payload)
    (u : StoredUser) (now : Nat)
    (hu : u ∈ db) (hcast : castableObjectId u.id = true)
    (hidu : ∀ w ∈ db, w.id = u.id → w = u)
    (hparse : updateParse body = Except.ok v)
    (hnc : truthy v.email = true →
      db.find? (fun w => w.email == toLowerCase (v.email.getD "") && w.id != u.id) = none) :
    (updateUser db u.id body now).1.status = 200 ∧
    (updateUser db u.id body now).1.success = true ∧
    (updateUser db u.id body now).1.data = RData.user (applyUpdate u v now) ∧
    (v.name = none → (applyUpdate u v now).name = u.name) ∧
    (v.email = none → (applyUpdate u v now).email = u.email) ∧
    (v.age = none → (applyUpdate u v now).age = u.age) ∧
    (applyUpdate u v now).updatedAt = now ∧
    (updateUser db u.id body now).2 =
      db.map (fun w => if w.id == u.id then applyUpdate u v now else w) := by
  have hw : db.find? (fun x => x.id == u.id) = some u := find?_id_eq_self db u hu hidu
  have hmain : updateUser db u.id body now = runUpdate db u.id v now := by
    rw [updateUser_ok_unfold db u.id body v now hparse]
    by_cases ht : truthy v.email = true
    · rw [if_pos ht, hnc ht]
      simp
    · rw [if_neg ht]
  rw [hmain, runUpdate_found db u.id v now u hcast hw]
  refine ⟨rfl, rfl, rfl, ?_, ?_, ?_, rfl, rfl⟩
  · intro h
    simp [applyUpdate, h]
  · intro h
    simp [applyUpdate, h]
  · intro h
    simp [applyUpdate, h]

theorem updateUser_frame_witness :
    updateParse { age := some 31 } = Except.ok { age := some 31 } ∧
    (updateUser [sampleUser] sampleUser.id { age := some 31 } 5).1.status = 200 ∧
    (applyUpdate sampleUser { age := some 31 } 5).name = sampleUser.name ∧
    (applyUpdate sampleUser { age := some 31 } 5).email = sampleUser.email ∧
    (applyUpdate sampleUser { age := some 31 } 5).age = some 31 ∧
    (applyUpdate sampleUser { age := some 31 } 5).updatedAt = 5 := by
  have h := updateUser_frame [sampleUser] { age := some 31 } { age := some 31 } sampleUser 5
    (List.mem_singleton.mpr rfl) (by decide) (by decide) rfl
    (fun ht => absurd ht (by decide))
  exact ⟨rfl, h.1, h.2.2.2.1 rfl, h.2.2.2.2.1 rfl, by decide, h.2.2.2.2.2.2.1⟩
